import Mathlib

/-!
Verification of the BizClaw core against its specification.

This file shallowly embeds the Rust code of the repository in Lean 4:

* `crates/bizclaw-scheduler/src/tasks.rs` — retry policy, scheduler tasks,
  `schedule_retry`, `mark_success`, `should_run`;
* `crates/bizclaw-security/src/allowlist.rs` — `is_command_allowed`;
* `crates/bizclaw-tools/src/http_request.rs` — `is_url_blocked`;
* `crates/bizclaw-agent/src/loop_detector.rs` — `LoopDetector`;
* `crates/bizclaw-core/src/types/orchestration.rs` — `TeamTask.is_claimable`,
  `Handoff`;
* `crates/bizclaw-db/src/sqlite.rs` and `postgres.rs` — the handoff table
  operations, modelled as operations on a list of rows.

Modelling conventions: `u32`/`u64` counters become `Nat` (the modelled
programs never approach the wrap bounds on the paths verified here, and
casts that saturate are modelled where they matter); `chrono` UTC instants
become `Int` seconds; the `f64` backoff multiplier becomes `ℚ` with the
`as u64` cast modelled as `Int.toNat ∘ Rat.floor`, which agrees with the
Rust truncating-saturating cast on every value the policy arithmetic can
produce; Rust `&str` becomes `String`.
-/

namespace Bizclaw

/-! ## Scheduler tasks (crates/bizclaw-scheduler/src/tasks.rs) -/

namespace Scheduler

/-- `RetryPolicy` from tasks.rs.  `backoff_multiplier: f64` is embedded as
an exact rational. -/
structure RetryPolicy where
  max_retries : Nat
  base_delay_secs : Nat
  backoff_multiplier : ℚ
  max_delay_secs : Nat
deriving DecidableEq, Repr

/-- `RetryPolicy::default()`: 3 retries, 30 s base, 2.0 multiplier, 300 s cap. -/
def RetryPolicy.defaultPolicy : RetryPolicy :=
  { max_retries := 3
    base_delay_secs := 30
    backoff_multiplier := 2
    max_delay_secs := 300 }

/-- `RetryPolicy::none()`. -/
def RetryPolicy.nonePolicy : RetryPolicy :=
  { RetryPolicy.defaultPolicy with max_retries := 0 }

/-- The Rust cast `f64 as u64`: truncate toward zero, negatives clamp to 0.
On rationals this is `Int.toNat ∘ Rat.floor` (for `q < 0`, both give 0;
for `q ≥ 0` floor and truncation coincide). -/
def ratToU64 (q : ℚ) : Nat := (⌊q⌋).toNat

/-- `RetryPolicy::next_delay`:
delay = `(base_delay_secs as f64 * backoff_multiplier.powi(attempt)) as u64`
capped at `max_delay_secs`; `None` once `attempt ≥ max_retries`. -/
def RetryPolicy.next_delay (p : RetryPolicy) (attempt : Nat) : Option Nat :=
  if attempt ≥ p.max_retries then
    none
  else
    let delay := ratToU64 ((p.base_delay_secs : ℚ) * p.backoff_multiplier ^ attempt)
    some (Nat.min delay p.max_delay_secs)

/-- `TaskAction` from tasks.rs. -/
inductive TaskAction where
  | agentPrompt (prompt : String)
  | notify (msg : String)
  | webhook (url : String) (method : String) (body : Option String)
      (headers : List (String × String))
deriving DecidableEq, Repr

/-- `TaskType` from tasks.rs (instants are seconds since the epoch). -/
inductive TaskType where
  | once (at_ : Int)
  | cron (expression : String)
  | interval (every_secs : Nat)
deriving DecidableEq, Repr

/-- `TaskStatus` from tasks.rs. -/
inductive TaskStatus where
  | pending
  | running
  | completed
  | failed (error : String)
  | disabled
  | retryPending (retry_at : Int) (attempt : Nat)
deriving DecidableEq, Repr

/-- `Task` from tasks.rs. -/
structure Task where
  id : String
  name : String
  action : TaskAction
  task_type : TaskType
  status : TaskStatus
  notify_via : Option String
  agent_name : Option String
  deliver_to : Option String
  created_at : Int
  last_run : Option Int
  next_run : Option Int
  run_count : Nat
  enabled : Bool
  retry : RetryPolicy
  fail_count : Nat
  last_error : Option String
deriving DecidableEq, Repr

/-- `Task::should_run`.  `now` stands for `Utc::now()`. -/
def Task.should_run (t : Task) (now : Int) : Bool :=
  if ¬ t.enabled ∨ t.status = TaskStatus.disabled then
    false
  else
    match t.status with
    | TaskStatus.retryPending retry_at _ => now ≥ retry_at
    | _ =>
      match t.next_run with
      | some next => now ≥ next
      | none => false

/-- `Task::schedule_retry`.  `now` stands for `Utc::now()`.  Returns the
Rust return value paired with the task after the mutation. -/
def Task.schedule_retry (t : Task) (now : Int) (error : String) : Bool × Task :=
  match t.retry.next_delay (t.fail_count + 1 - 1) with
  | some delay =>
      (true,
        { t with
          fail_count := t.fail_count + 1
          last_error := some error
          status := TaskStatus.retryPending (now + (delay : Int)) (t.fail_count + 1)
          next_run := some (now + (delay : Int)) })
  | none =>
      (false,
        { t with
          fail_count := t.fail_count + 1
          last_error := some error
          status := TaskStatus.failed error })

/-- `Task::mark_success`. -/
def Task.mark_success (t : Task) : Task :=
  { t with
    fail_count := 0
    last_error := none
    status := TaskStatus.completed }

/-- `Task::is_permanently_failed`. -/
def Task.is_permanently_failed (t : Task) : Bool :=
  (match t.status with | TaskStatus.failed _ => true | _ => false)
    && t.fail_count ≥ t.retry.max_retries
    && t.retry.max_retries > 0

/-- A concrete interval task as built by `Task::interval` at instant 0
(with a fixed id in place of the timestamp-derived one). -/
def sampleTask : Task :=
  { id := "task-0"
    name := "test"
    action := TaskAction.notify "hello"
    task_type := TaskType.interval 60
    status := TaskStatus.pending
    notify_via := none
    agent_name := none
    deliver_to := none
    created_at := 0
    last_run := none
    next_run := some 60
    run_count := 0
    enabled := true
    retry := RetryPolicy.defaultPolicy
    fail_count := 0
    last_error := none }

/-- Evaluation lemma for the default policy: delays 30, 60, 120, then `none`
(tasks.rs `test_retry_policy_default`). -/
theorem defaultPolicy_delays :
    RetryPolicy.defaultPolicy.next_delay 0 = some 30 ∧
    RetryPolicy.defaultPolicy.next_delay 1 = some 60 ∧
    RetryPolicy.defaultPolicy.next_delay 2 = some 120 ∧
    RetryPolicy.defaultPolicy.next_delay 3 = none := by
  refine ⟨?_, ?_, ?_, ?_⟩ <;>
      simp only [RetryPolicy.next_delay, RetryPolicy.defaultPolicy, ratToU64] <;>
      norm_num <;> decide

example : RetryPolicy.nonePolicy.next_delay 0 = none := by
  simp [RetryPolicy.next_delay, RetryPolicy.nonePolicy, RetryPolicy.defaultPolicy]

example :
    (RetryPolicy.mk 10 100 3 300).next_delay 2 = some 300 := by
  simp only [RetryPolicy.next_delay, ratToU64]
  norm_num [Int.toNat_ofNat]

/-- A task whose retry budget (default: 3) is already overdrawn:
`fail_count = 4` with `max_retries = 3`.  The repository's own test
`test_schedule_retry` drives a task into `fail_count = 4`, and a permanently
failed task can still be run and fail again (see `Task.should_run`). -/
def overdrawnTask : Task :=
  { sampleTask with
    fail_count := 4
    status := TaskStatus.failed "connection timeout"
    last_error := some "connection timeout" }

/-- A task one failure away from exhaustion: `fail_count = 3`,
waiting at `retry_at = 210`. -/
def exhaustedInput : Task :=
  { sampleTask with
    fail_count := 3
    status := TaskStatus.retryPending 210 3
    next_run := some 210
    last_error := some "e" }

/-- The task after the final, budget-exhausting `schedule_retry` call. -/
def exhaustedTask : Task := (exhaustedInput.schedule_retry 210 "boom").2

/-- Claim C1, counterexample: the claim quantifies over every task, but a
task called on `schedule_retry` once more after its budget is already
overdrawn (`fail_count = 4 > max_retries = 3`) ends with
`fail_count = 5 ≠ max_retries + 1 = 4` while its status is `Failed`, so
neither disjunct of the claim holds for it. -/
theorem schedule_retry_claim_false_when_overdrawn :
    (overdrawnTask.schedule_retry 0 "boom").2.status = TaskStatus.failed "boom" ∧
    (overdrawnTask.schedule_retry 0 "boom").2.fail_count = 5 ∧
    overdrawnTask.retry.max_retries + 1 = 4 ∧
    (overdrawnTask.schedule_retry 0 "boom").2.fail_count ≠
      overdrawnTask.retry.max_retries + 1 := by
  decide

/-- Claim C1 (amended with the precondition `fail_count ≤ max_retries`,
i.e. the retry budget is not yet overdrawn — the only situation the
counterexample excludes): after `schedule_retry(F)` either the status is
`RetryPending {retry_at, attempt}` with `retry_at = now + delay ≥ now`,
`fail_count ≤ max_retries`, `next_run = retry_at` and
`delay = min(base_delay_secs · backoff_multiplier ^ (fail_count − 1),
max_delay_secs)` (`fail_count` the post-call value), or the status is
`Failed F` and `fail_count = max_retries + 1`. -/
theorem schedule_retry_amended (now : Int) (t : Task) (err : String)
    (h : t.fail_count ≤ t.retry.max_retries) :
    ((t.schedule_retry now err).1 = true ∧
      (t.schedule_retry now err).2.status =
        TaskStatus.retryPending
          (now + (Nat.min (ratToU64 ((t.retry.base_delay_secs : ℚ) *
              t.retry.backoff_multiplier ^ t.fail_count)) t.retry.max_delay_secs : Nat))
          (t.fail_count + 1) ∧
      now ≤ now + (Nat.min (ratToU64 ((t.retry.base_delay_secs : ℚ) *
          t.retry.backoff_multiplier ^ t.fail_count)) t.retry.max_delay_secs : Nat) ∧
      (t.schedule_retry now err).2.fail_count ≤ t.retry.max_retries ∧
      (t.schedule_retry now err).2.next_run =
        some (now + (Nat.min (ratToU64 ((t.retry.base_delay_secs : ℚ) *
            t.retry.backoff_multiplier ^ t.fail_count)) t.retry.max_delay_secs : Nat)))
    ∨ ((t.schedule_retry now err).1 = false ∧
        (t.schedule_retry now err).2.status = TaskStatus.failed err ∧
        (t.schedule_retry now err).2.fail_count = t.retry.max_retries + 1) := by
  by_cases hlt : t.fail_count < t.retry.max_retries
  · left
    have hd : t.retry.next_delay t.fail_count =
        some (Nat.min (ratToU64 ((t.retry.base_delay_secs : ℚ) *
          t.retry.backoff_multiplier ^ t.fail_count)) t.retry.max_delay_secs) := by
      simp only [RetryPolicy.next_delay]
      rw [if_neg (by omega)]
    refine ⟨?_, ?_, ?_, ?_, ?_⟩
    · simp only [Task.schedule_retry, Nat.add_sub_cancel, hd]
    · simp only [Task.schedule_retry, Nat.add_sub_cancel, hd]
    · exact Int.le_add_of_nonneg_right (Int.natCast_nonneg _)
    · simp only [Task.schedule_retry, Nat.add_sub_cancel, hd]
      omega
    · simp only [Task.schedule_retry, Nat.add_sub_cancel, hd]
  · right
    have heq : t.fail_count = t.retry.max_retries := by omega
    have hd : t.retry.next_delay t.fail_count = none := by
      simp only [RetryPolicy.next_delay]
      rw [if_pos (by omega)]
    refine ⟨?_, ?_, ?_⟩
    · simp only [Task.schedule_retry, Nat.add_sub_cancel, hd]
    · simp only [Task.schedule_retry, Nat.add_sub_cancel, hd]
    · simp only [Task.schedule_retry, Nat.add_sub_cancel, hd]
      omega

/-- Witness for `schedule_retry_amended` at the concrete task
`sampleTask` (defaults, `fail_count = 0`) at `now = 0`. -/
theorem schedule_retry_amended_witness :
    ((sampleTask.schedule_retry 0 "e").1 = true ∧
      (sampleTask.schedule_retry 0 "e").2.status =
        TaskStatus.retryPending
          (0 + (Nat.min (ratToU64 ((sampleTask.retry.base_delay_secs : ℚ) *
              sampleTask.retry.backoff_multiplier ^ sampleTask.fail_count))
            sampleTask.retry.max_delay_secs : Nat))
          (sampleTask.fail_count + 1) ∧
      (0 : Int) ≤ 0 + (Nat.min (ratToU64 ((sampleTask.retry.base_delay_secs : ℚ) *
          sampleTask.retry.backoff_multiplier ^ sampleTask.fail_count))
        sampleTask.retry.max_delay_secs : Nat) ∧
      (sampleTask.schedule_retry 0 "e").2.fail_count ≤ sampleTask.retry.max_retries ∧
      (sampleTask.schedule_retry 0 "e").2.next_run =
        some (0 + (Nat.min (ratToU64 ((sampleTask.retry.base_delay_secs : ℚ) *
            sampleTask.retry.backoff_multiplier ^ sampleTask.fail_count))
          sampleTask.retry.max_delay_secs : Nat)))
    ∨ ((sampleTask.schedule_retry 0 "e").1 = false ∧
        (sampleTask.schedule_retry 0 "e").2.status = TaskStatus.failed "e" ∧
        (sampleTask.schedule_retry 0 "e").2.fail_count =
          sampleTask.retry.max_retries + 1) :=
  schedule_retry_amended 0 sampleTask "e" (by decide)

/-- Claim C9: `mark_success` zeroes `fail_count`, clears `last_error`, sets
status `Completed`, and leaves every other field of the task unchanged. -/
theorem mark_success_spec (t : Task) :
    t.mark_success.fail_count = 0 ∧
    t.mark_success.last_error = none ∧
    t.mark_success.status = TaskStatus.completed ∧
    t.mark_success.id = t.id ∧
    t.mark_success.name = t.name ∧
    t.mark_success.action = t.action ∧
    t.mark_success.task_type = t.task_type ∧
    t.mark_success.notify_via = t.notify_via ∧
    t.mark_success.agent_name = t.agent_name ∧
    t.mark_success.deliver_to = t.deliver_to ∧
    t.mark_success.created_at = t.created_at ∧
    t.mark_success.last_run = t.last_run ∧
    t.mark_success.next_run = t.next_run ∧
    t.mark_success.run_count = t.run_count ∧
    t.mark_success.enabled = t.enabled ∧
    t.mark_success.retry = t.retry :=
  ⟨rfl, rfl, rfl, rfl, rfl, rfl, rfl, rfl, rfl, rfl, rfl, rfl, rfl, rfl, rfl, rfl⟩

/-- Claim C10: when `schedule_retry` exhausts the budget and returns
`false`, it neither disables the task nor updates `next_run` (which still
holds the previous retry time); consequently a permanently failed task
exists for which `should_run` is true once that stale `next_run` has
passed. -/
theorem schedule_retry_exhausted_leaves_runnable :
    (∀ (now : Int) (t : Task) (err : String),
        (t.schedule_retry now err).1 = false →
          (t.schedule_retry now err).2.enabled = t.enabled ∧
          (t.schedule_retry now err).2.next_run = t.next_run)
    ∧ (exhaustedTask.is_permanently_failed = true ∧
        exhaustedTask.status = TaskStatus.failed "boom" ∧
        exhaustedTask.next_run = some 210 ∧
        exhaustedTask.should_run 300 = true) := by
  constructor
  · intro now t err hfalse
    cases hd : t.retry.next_delay (t.fail_count + 1 - 1) with
    | some delay =>
        rw [Task.schedule_retry, hd] at hfalse
        simp at hfalse
    | none =>
        rw [Task.schedule_retry, hd]
        exact ⟨rfl, rfl⟩
  · decide

/-- Witness for `schedule_retry_exhausted_leaves_runnable`: the frame part
applied to the concrete exhausting call. -/
theorem schedule_retry_exhausted_leaves_runnable_witness :
    (exhaustedInput.schedule_retry 210 "boom").2.enabled = exhaustedInput.enabled ∧
    (exhaustedInput.schedule_retry 210 "boom").2.next_run = exhaustedInput.next_run :=
  schedule_retry_exhausted_leaves_runnable.1 210 exhaustedInput "boom" (by decide)

end Scheduler

/-! ## Command allowlist (crates/bizclaw-security/src/allowlist.rs)

`Allowlist.is_command_allowed` depends only on the `allowed_commands` set,
modelled as a `List String`; Rust's `HashSet::contains` becomes
`List.contains`.  Rust `char::is_whitespace` is Unicode; the model uses
`Char.isWhitespace` (ASCII whitespace), which agrees on all inputs below. -/

namespace Security

/-- `DANGEROUS_CHARS` from allowlist.rs: `; | & \x60 $ ( ) \x7b \x7d > <`
(backtick and braces written as their code points). -/
def DANGEROUS_CHARS : List Char :=
  [';', '|', '&', '\x60', '$', '(', ')', '\x7b', '\x7d', '>', '<']

/-- `command.split_whitespace().next().unwrap_or("")`: the first maximal
run of non-whitespace characters, or `""`. -/
def firstToken (s : String) : String :=
  String.mk ((s.data.dropWhile Char.isWhitespace).takeWhile (fun c => !c.isWhitespace))

/-- Split a character list on a separator character (Rust `str::split`). -/
def splitOnChar (sep : Char) : List Char → List (List Char)
  | [] => [[]]
  | c :: cs =>
      match splitOnChar sep cs with
      | [] => [[]]
      | h :: t => if c == sep then [] :: h :: t else (c :: h) :: t

/-- `std::path::Path::new(p).file_name()`: the final normal component —
split on `/`, discard empty components and `.`; `none` when nothing
remains or the final component is `..`. -/
def pathFileName (p : String) : Option String :=
  let parts := (splitOnChar '/' p.data).filter (fun s => !s.isEmpty && !(s == ['.']))
  match parts.getLast? with
  | some last => if last == "..".data then none else some (String.mk last)
  | none => none

/-- `Allowlist::is_command_allowed`. -/
def is_command_allowed (allowed_commands : List String) (command : String) : Bool :=
  if command.data.any (fun c => DANGEROUS_CHARS.contains c) then
    false
  else
    let cmd_base := firstToken command
    let cmd_name := (pathFileName cmd_base).getD cmd_base
    allowed_commands.contains cmd_name || allowed_commands.contains cmd_base

example : is_command_allowed ["ls", "cat", "grep"] "cat file.txt" = true := by decide
example : is_command_allowed ["ls", "cat"] "rm -rf /" = false := by decide
example : is_command_allowed ["echo"] "echo test > /etc/passwd" = false := by decide
example : is_command_allowed ["ls"] "/usr/bin/ls" = true := by decide

/-- Claim C2, evaluation at the failing input: the code's metacharacter
list does not contain the newline, so `"ls\nrm -rf /"` — which the claim
(and the spec, which lists `\n` among the rejected characters) requires to
be denied, and which `sh -c` would run as two chained commands — is
allowed.  The claim's other concrete examples evaluate as stated. -/
theorem is_command_allowed_newline_bypass :
    is_command_allowed ["ls", "echo"] "ls\nrm -rf /" = true ∧
    (Char.ofNat 10) ∉ DANGEROUS_CHARS ∧
    is_command_allowed ["ls", "echo"] "ls; rm -rf /" = false ∧
    is_command_allowed ["ls", "echo"] "ls" = true ∧
    is_command_allowed ["ls", "echo"] "/bin/ls -la" = true ∧
    is_command_allowed ["ls", "echo"] "" = false ∧
    is_command_allowed ["ls", "echo"] "   " = false := by
  decide

end Security

/-! ## SSRF guard (crates/bizclaw-tools/src/http_request.rs)

Rust `str::to_lowercase` is modelled by `String.toLower` (they agree on
ASCII, and every pattern below is ASCII); `str::starts_with` by
`List.isPrefixOf` on the character list; `str::contains` by `containsSub`. -/

namespace Tools

/-- Substring test: does `hay` contain `pat` as a contiguous run? -/
def containsSub (pat : List Char) : List Char → Bool
  | [] => pat.isEmpty
  | c :: t => pat.isPrefixOf (c :: t) || containsSub pat t

/-- First occurrence split: `some (pre, post)` when `pat` occurs in `hay`,
with `hay = pre ++ pat ++ post` at the leftmost occurrence. -/
def breakFirst (pat : List Char) : List Char → Option (List Char × List Char)
  | [] => if pat.isEmpty then some ([], []) else none
  | c :: t =>
      if pat.isPrefixOf (c :: t) then some ([], (c :: t).drop pat.length)
      else
        match breakFirst pat t with
        | some (pre, post) => some (c :: pre, post)
        | none => none

/-- Rust `hay.split(pat).nth(1).unwrap_or("")`: the second segment of the
split, or `""` when the pattern does not occur. -/
def splitNth1 (pat hay : List Char) : List Char :=
  match breakFirst pat hay with
  | none => []
  | some (_, rest) =>
      match breakFirst pat rest with
      | none => rest
      | some (seg, _) => seg

/-- `blocked_patterns` from http_request.rs. -/
def blocked_patterns : List String :=
  ["127.0.0.1", "localhost", "0.0.0.0", "[::1]", "[::0]",
   "169.254.", "metadata.google", "metadata.aws",
   "10.", "192.168.",
   "172.16.", "172.17.", "172.18.", "172.19.",
   "172.20.", "172.21.", "172.22.", "172.23.",
   "172.24.", "172.25.", "172.26.", "172.27.",
   "172.28.", "172.29.", "172.30.", "172.31."]

/-- `url.to_lowercase()`, as a character list (ASCII case mapping). -/
def lowerData (url : String) : List Char := url.data.map Char.toLower

/-- The host extraction of `is_url_blocked`: the part of the lowercased
URL after `://`, before the first `/`, then before the first `:`. -/
def hostNoPort (url : String) : List Char :=
  let host_part := splitNth1 "://".data (lowerData url)
  let host := host_part.takeWhile (fun c => c != '/')
  host.takeWhile (fun c => c != ':')

/-- The scheme test of `is_url_blocked`:
`lower_url.starts_with("http://") || lower_url.starts_with("https://")`. -/
def hasHttpScheme (url : String) : Bool :=
  "http://".data.isPrefixOf (lowerData url) ||
    "https://".data.isPrefixOf (lowerData url)

/-- `is_url_blocked` from http_request.rs. -/
def is_url_blocked (url : String) : Option String :=
  if !hasHttpScheme url then
    some "Only HTTP/HTTPS schemes allowed"
  else if blocked_patterns.any (fun p => containsSub p.data (hostNoPort url)) then
    some ("Cannot access internal/private network (" ++ String.mk (hostNoPort url) ++ ")")
  else
    none

example : (is_url_blocked "http://localhost/admin").isSome = true := by decide
example : (is_url_blocked "http://127.0.0.1:3000/api").isSome = true := by decide
example : (is_url_blocked "ftp://example.com").isSome = true := by decide
example : is_url_blocked "https://example.com/page" = none := by decide

/-- Claim C3: any URL failing the http/https scheme test is blocked; any
http(s) URL whose extracted host (after `://`, before `/` and `:`)
matches the denylist (substring match against `blocked_patterns`, which
lists localhost, the loopback literals, the bracketed IPv6 loopbacks,
`169.254.`, the cloud metadata hostnames, `10.`, `192.168.`, and
`172.16.`–`172.31.`) is blocked; the metadata URL is blocked while
`https://api.github.com` and hosts with prefixes `172.15.` / `172.32.`
are allowed. -/
theorem is_url_blocked_spec :
    (∀ u : String, hasHttpScheme u = false → (is_url_blocked u).isSome = true) ∧
    (∀ u : String, hasHttpScheme u = true →
      blocked_patterns.any (fun p => containsSub p.data (hostNoPort u)) = true →
      (is_url_blocked u).isSome = true) ∧
    (is_url_blocked "http://169.254.169.254/latest").isSome = true ∧
    is_url_blocked "https://api.github.com" = none ∧
    is_url_blocked "http://172.15.0.1/x" = none ∧
    is_url_blocked "http://172.32.0.1/x" = none := by
  refine ⟨?_, ?_, by decide, by decide, by decide, by decide⟩
  · intro u h
    simp [is_url_blocked, h]
  · intro u h1 h2
    simp [is_url_blocked, h1, h2]

/-- Witness for `is_url_blocked_spec`: the scheme branch at `ftp://x` and
the denylist branch at `http://localhost/`. -/
theorem is_url_blocked_spec_witness :
    (is_url_blocked "ftp://x").isSome = true ∧
    (is_url_blocked "http://localhost/").isSome = true :=
  ⟨is_url_blocked_spec.1 "ftp://x" (by decide),
   is_url_blocked_spec.2.1 "http://localhost/" (by decide) (by decide)⟩

end Tools

/-! ## Tool loop detector (crates/bizclaw-agent/src/loop_detector.rs)

The `VecDeque<(String, u64)>` history is a `List (String × Nat)` with the
front at the head: `push_back` appends, `pop_front` drops the head.
The FNV-1a-style `hash_args` is embedded exactly, with `u64` wrapping
arithmetic as `% 2 ^ 64`. -/

namespace Agent

/-- `LoopDetector` from loop_detector.rs. -/
structure LoopDetector where
  history : List (String × Nat)
  max_history : Nat
  max_repetitions : Nat
  loops_detected : Nat
  tokens_saved : Nat
deriving DecidableEq, Repr

/-- `LoopDetector::new()`: defaults `max_history = 20`, `max_repetitions = 3`. -/
def LoopDetector.new : LoopDetector :=
  { history := []
    max_history := 20
    max_repetitions := 3
    loops_detected := 0
    tokens_saved := 0 }

/-- `LoopDetector::with_config`. -/
def LoopDetector.with_config (max_history max_repetitions : Nat) : LoopDetector :=
  { history := []
    max_history := max_history
    max_repetitions := max_repetitions
    loops_detected := 0
    tokens_saved := 0 }

/-- UTF-8 encoding of one scalar value (Rust `str::bytes` yields these). -/
def utf8Bytes (c : Char) : List Nat :=
  let n := c.toNat
  if n < 0x80 then [n]
  else if n < 0x800 then [0xC0 + n / 64, 0x80 + n % 64]
  else if n < 0x10000 then [0xE0 + n / 4096, 0x80 + n / 64 % 64, 0x80 + n % 64]
  else [0xF0 + n / 262144, 0x80 + n / 4096 % 64, 0x80 + n / 64 % 64, 0x80 + n % 64]

/-- `LoopDetector::hash_args`: FNV-1a over the UTF-8 bytes with wrapping
`u64` arithmetic. -/
def hash_args (args : String) : Nat :=
  ((args.data.map utf8Bytes).flatten).foldl
    (fun h b => ((h ^^^ b) * 0x100000001b3) % 2 ^ 64) 0xcbf29ce484222325

/-- The body of `LoopDetector::check` once the `(tool_name, args_hash)`
entry is formed. -/
def LoopDetector.checkFP (d : LoopDetector) (entry : String × Nat) : Bool × LoopDetector :=
  let count := (d.history.filter (fun e => e.1 == entry.1 && e.2 == entry.2)).length
  let hist1 := d.history ++ [entry]
  let hist2 := if hist1.length > d.max_history then hist1.drop 1 else hist1
  if count ≥ d.max_repetitions then
    (true,
      { d with
        history := hist2
        loops_detected := d.loops_detected + 1
        tokens_saved := d.tokens_saved + 500 })
  else if hist2.length ≥ 6 then
    let dflt : String × Nat := ("", 0)
    let len := hist2.length
    let a := hist2.getD (len - 1) dflt
    let b := hist2.getD (len - 2) dflt
    if hist2.getD (len - 3) dflt == a && hist2.getD (len - 4) dflt == b &&
        hist2.getD (len - 5) dflt == a && hist2.getD (len - 6) dflt == b then
      (true,
        { d with
          history := hist2
          loops_detected := d.loops_detected + 1
          tokens_saved := d.tokens_saved + 500 })
    else
      (false, { d with history := hist2 })
  else
    (false, { d with history := hist2 })

/-- `LoopDetector::check`. -/
def LoopDetector.check (d : LoopDetector) (tool_name arguments : String) :
    Bool × LoopDetector :=
  d.checkFP (tool_name, hash_args arguments)

/-- `LoopDetector::clear`: clears only the history. -/
def LoopDetector.clear (d : LoopDetector) : LoopDetector :=
  { d with history := [] }

/-- `LoopDetectorStats` from loop_detector.rs. -/
structure LoopDetectorStats where
  history_size : Nat
  loops_detected : Nat
  tokens_saved : Nat
deriving DecidableEq, Repr

/-- `LoopDetector::stats`. -/
def LoopDetector.stats (d : LoopDetector) : LoopDetectorStats :=
  { history_size := d.history.length
    loops_detected := d.loops_detected
    tokens_saved := d.tokens_saved }

/-- The fingerprint-match predicate used by `check` is true at the entry
itself. -/
theorem fpPred_self (a : String × Nat) : (a.1 == a.1 && a.2 == a.2) = true := by
  simp

/-- The fingerprint-match predicate is false across distinct fingerprints. -/
theorem fpPred_ne (a b : String × Nat) (h : a ≠ b) :
    (b.1 == a.1 && b.2 == a.2) = false := by
  rcases a with ⟨a1, a2⟩
  rcases b with ⟨b1, b2⟩
  simp only [ne_eq, Prod.mk.injEq, not_and] at h
  by_cases h1 : b1 = a1
  · subst h1
    have h2 : b2 ≠ a2 := fun hh => h rfl hh.symm
    simp [h2]
  · simp [h1]

/-- Claim C5: with the defaults (`max_history = 20`, `max_repetitions = 3`),
four consecutive `check("web_search", args)` calls with the same `args`
return `false, false, false, true`, and `stats().loops_detected = 1`
afterwards. -/
theorem check_exact_repeat_sequence (args : String) :
    (LoopDetector.new.check "web_search" args).1 = false ∧
    ((LoopDetector.new.check "web_search" args).2.check "web_search" args).1 = false ∧
    (((LoopDetector.new.check "web_search" args).2.check "web_search" args).2.check
        "web_search" args).1 = false ∧
    ((((LoopDetector.new.check "web_search" args).2.check "web_search" args).2.check
        "web_search" args).2.check "web_search" args).1 = true ∧
    ((((LoopDetector.new.check "web_search" args).2.check "web_search" args).2.check
        "web_search" args).2.check "web_search" args).2.stats.loops_detected = 1 := by
  simp [LoopDetector.check, LoopDetector.checkFP, LoopDetector.new, LoopDetector.stats]

/-- Repeated identical observation of one fingerprint, starting from the
default detector: `iterSame fp n` is the result of the `n`-th `checkFP fp`
call (with `(false, new)` at `n = 0`). -/
def iterSame (fp : String × Nat) : Nat → Bool × LoopDetector
  | 0 => (false, LoopDetector.new)
  | n + 1 => (iterSame fp n).2.checkFP fp

theorem filter_self_replicate (fp : String × Nat) (m : Nat) :
    (List.replicate m fp).filter (fun e => e.1 == fp.1 && e.2 == fp.2) =
      List.replicate m fp := by
  induction m with
  | zero => rfl
  | succ n ih => simp [List.replicate_succ, List.filter_cons, ih]

/-- Every branch of `checkFP` stores the same updated history and leaves
the configuration fields unchanged. -/
theorem checkFP_frame (d : LoopDetector) (fp : String × Nat) :
    (d.checkFP fp).2.history =
      (if (d.history ++ [fp]).length > d.max_history
        then (d.history ++ [fp]).drop 1 else d.history ++ [fp]) ∧
    (d.checkFP fp).2.max_history = d.max_history ∧
    (d.checkFP fp).2.max_repetitions = d.max_repetitions := by
  simp only [LoopDetector.checkFP]
  refine ⟨?_, ?_, ?_⟩ <;> (repeat' split) <;> rfl

theorem iterSame_state (fp : String × Nat) (n : Nat) :
    (iterSame fp n).2.history = List.replicate (Nat.min n 20) fp ∧
    (iterSame fp n).2.max_history = 20 ∧
    (iterSame fp n).2.max_repetitions = 3 := by
  induction n with
  | zero => exact ⟨rfl, rfl, rfl⟩
  | succ n ih =>
      obtain ⟨hh, hm, hr⟩ := ih
      obtain ⟨fh, fm, fr⟩ := checkFP_frame (iterSame fp n).2 fp
      refine ⟨?_, ?_, ?_⟩
      · simp only [iterSame]
        rw [fh, hh, hm, ← List.replicate_succ' (Nat.min n 20) fp,
          List.length_replicate]
        by_cases hn : n < 20
        · have h1 : Nat.min n 20 = n := Nat.min_eq_left (by omega)
          have h2 : Nat.min (n + 1) 20 = n + 1 := Nat.min_eq_left (by omega)
          rw [h1, h2, if_neg (by omega)]
        · have h1 : Nat.min n 20 = 20 := Nat.min_eq_right (by omega)
          have h2 : Nat.min (n + 1) 20 = 20 := Nat.min_eq_right (by omega)
          rw [h1, h2, if_pos (by omega), List.replicate_succ,
            List.drop_succ_cons, List.drop_zero]
      · simp only [iterSame]
        rw [fm, hm]
      · simp only [iterSame]
        rw [fr, hr]

/-- Tuple `==` (Rust `PartialEq` on `(String, u64)`) agrees with the
componentwise fingerprint predicate. -/
theorem pairBeq_eq_beq (a b : String × Nat) :
    (a == b) = (a.1 == b.1 && a.2 == b.2) := by
  rcases a with ⟨a1, a2⟩
  rcases b with ⟨b1, b2⟩
  rfl

theorem pairBeq_self (a : String × Nat) : (a == a) = true := by
  rw [pairBeq_eq_beq]
  simp

theorem pairBeq_ne (a b : String × Nat) (h : a ≠ b) : (a == b) = false := by
  rw [pairBeq_eq_beq]
  exact fpPred_ne b a (Ne.symm h)

/-- Claim C6, counterexample: with the defaults (`max_repetitions = 3`),
the third identical call — `k = max_repetitions`, allowed by the claim's
`k ≥ max_repetitions` — returns `false`, not `true`; only the fourth
returns `true`. -/
theorem check_kth_call_at_max_repetitions_not_flagged :
    LoopDetector.new.max_repetitions = 3 ∧
    (iterSame ("a", 0) 3).1 = false ∧
    (iterSame ("a", 0) 4).1 = true := by
  decide

/-- Claim C6 (amended: `true` on the `k`-th call requires
`k ≥ max_repetitions + 1`, as forced by the counterexample): starting from
the default detector, the `k`-th observation of one fingerprint returns
`true` for every `k ≥ max_repetitions + 1`, and `clear()` empties the
history, so an immediately following identical call is not flagged (for
any detector with `max_repetitions ≥ 1`). -/
theorem check_repeat_amended :
    (∀ (fp : String × Nat) (k : Nat), LoopDetector.new.max_repetitions + 1 ≤ k →
        (iterSame fp k).1 = true) ∧
    (∀ (d : LoopDetector) (tool args : String), 1 ≤ d.max_repetitions →
        (d.clear.check tool args).1 = false) := by
  constructor
  · intro fp k hk
    have hk4 : 4 ≤ k := hk
    obtain ⟨n, rfl⟩ : ∃ n, k = n + 1 := ⟨k - 1, by omega⟩
    obtain ⟨hh, hm, hr⟩ := iterSame_state fp n
    simp only [iterSame, LoopDetector.checkFP, hh, hm, hr, filter_self_replicate,
      List.length_replicate]
    have hcond : Nat.min n 20 ≥ 3 := by
      by_cases hn : n ≤ 20
      · have h1 : Nat.min n 20 = n := Nat.min_eq_left hn
        omega
      · have h1 : Nat.min n 20 = 20 := Nat.min_eq_right (by omega)
        omega
    rw [if_pos hcond]
  · intro d tool args hmr
    simp only [LoopDetector.check, LoopDetector.clear, LoopDetector.checkFP,
      List.filter_nil, List.length_nil, List.nil_append]
    rw [if_neg (by omega)]
    by_cases hmh : ([(tool, hash_args args)] : List (String × Nat)).length > d.max_history
    · rw [if_pos hmh]
      simp
    · rw [if_neg hmh]
      simp

/-- Witness for `check_repeat_amended`: four identical calls flag the
fourth, and a call right after `clear()` is not flagged. -/
theorem check_repeat_amended_witness :
    (iterSame ("ws", 7) 4).1 = true ∧
    (LoopDetector.new.clear.check "a" "x").1 = false :=
  ⟨check_repeat_amended.1 ("ws", 7) 4 (by decide),
   check_repeat_amended.2 LoopDetector.new "a" "x" (by decide)⟩

/-- Claim C7: from a fresh default detector, the calls
`A, B, A, B, A, B` on two distinct fingerprints return
`false, false, false, false, false, true` — the sixth call matches the
alternating pattern in the last six history slots. -/
theorem check_alternation_sequence (A B : String × Nat) (h : A ≠ B) :
    (LoopDetector.new.checkFP A).1 = false ∧
    ((LoopDetector.new.checkFP A).2.checkFP B).1 = false ∧
    (((LoopDetector.new.checkFP A).2.checkFP B).2.checkFP A).1 = false ∧
    ((((LoopDetector.new.checkFP A).2.checkFP B).2.checkFP A).2.checkFP B).1 = false ∧
    (((((LoopDetector.new.checkFP A).2.checkFP B).2.checkFP A).2.checkFP B).2.checkFP
        A).1 = false ∧
    ((((((LoopDetector.new.checkFP A).2.checkFP B).2.checkFP A).2.checkFP B).2.checkFP
        A).2.checkFP B).1 = true := by
  have hAB := fpPred_ne A B h
  have hBA := fpPred_ne B A (Ne.symm h)
  have pAB := pairBeq_ne A B h
  have pBA := pairBeq_ne B A (Ne.symm h)
  refine ⟨?_, ?_, ?_, ?_, ?_, ?_⟩ <;>
    simp [LoopDetector.checkFP, LoopDetector.new, hAB, hBA, pAB, pBA,
      fpPred_self, pairBeq_self]

/-- Witness for `check_alternation_sequence` at the distinct fingerprints
`("file", 1)` and `("file", 2)`. -/
theorem check_alternation_sequence_witness :
    (LoopDetector.new.checkFP ("file", 1)).1 = false ∧
    ((LoopDetector.new.checkFP ("file", 1)).2.checkFP ("file", 2)).1 = false ∧
    (((LoopDetector.new.checkFP ("file", 1)).2.checkFP ("file", 2)).2.checkFP
        ("file", 1)).1 = false ∧
    ((((LoopDetector.new.checkFP ("file", 1)).2.checkFP ("file", 2)).2.checkFP
        ("file", 1)).2.checkFP ("file", 2)).1 = false ∧
    (((((LoopDetector.new.checkFP ("file", 1)).2.checkFP ("file", 2)).2.checkFP
        ("file", 1)).2.checkFP ("file", 2)).2.checkFP ("file", 1)).1 = false ∧
    ((((((LoopDetector.new.checkFP ("file", 1)).2.checkFP ("file", 2)).2.checkFP
        ("file", 1)).2.checkFP ("file", 2)).2.checkFP ("file", 1)).2.checkFP
        ("file", 2)).1 = true :=
  check_alternation_sequence ("file", 1) ("file", 2) (by decide)

end Agent

/-! ## Team tasks (crates/bizclaw-core/src/types/orchestration.rs) -/

namespace Orchestration

/-- `TaskStatus` from orchestration.rs (the task-board one). -/
inductive TeamTaskStatus where
  | pending
  | inProgress
  | blocked
  | completed
  | failed
deriving DecidableEq, Repr

/-- `TeamTask` from orchestration.rs. -/
structure TeamTask where
  id : String
  team_id : String
  title : String
  description : String
  status : TeamTaskStatus
  created_by : String
  assigned_to : Option String
  blocked_by : List String
  result : Option String
  created_at : Int
  updated_at : Int
deriving DecidableEq, Repr

/-- `TeamTask::is_claimable`. -/
def TeamTask.is_claimable (t : TeamTask) (completed_tasks : List String) : Bool :=
  t.status == TeamTaskStatus.pending && t.assigned_to.isNone &&
    t.blocked_by.all (fun dep => completed_tasks.contains dep)

/-- Claim C8: `is_claimable(C)` holds exactly when the task is pending,
unassigned, and every blocker is in the completed set `C`. -/
theorem is_claimable_iff (t : TeamTask) (C : List String) :
    t.is_claimable C = true ↔
      (t.status = TeamTaskStatus.pending ∧ t.assigned_to = none ∧
        ∀ dep ∈ t.blocked_by, dep ∈ C) := by
  simp [TeamTask.is_claimable, Option.isNone_iff_eq_none, and_assoc]

end Orchestration

/-! ## Handoffs (orchestration.rs, bizclaw-db/src/sqlite.rs, postgres.rs)

The `handoffs` table is modelled as the list of its rows in insertion
order.  `create_handoff` on both backends runs
`UPDATE handoffs SET active = 0/FALSE WHERE session_id = ? AND active`
followed by the `INSERT`; `active_handoff` runs
`SELECT ... WHERE session_id = ? AND active ORDER BY created_at DESC
LIMIT 1`, modelled as the maximal-`created_at` element of the active rows
(exact whenever at most one row is active, which the claims establish). -/

namespace Db

/-- `Handoff` from orchestration.rs (instants as epoch seconds). -/
structure Handoff where
  id : String
  from_agent : String
  to_agent : String
  session_id : String
  reason : Option String
  context_summary : Option String
  active : Bool
  created_at : Int
deriving DecidableEq, Repr

/-- The handoffs table. -/
abbrev HandoffTable := List Handoff

/-- Effect of the deactivating `UPDATE` on one row. -/
def deactivateFor (sid : String) (r : Handoff) : Handoff :=
  if r.session_id == sid && r.active then { r with active := false } else r

/-- `create_handoff` of the embedded (SQLite) backend: deactivate every
active row of the session, then insert the new row. -/
def sqlite_create_handoff (db : HandoffTable) (h : Handoff) : HandoffTable :=
  db.map (deactivateFor h.session_id) ++ [h]

/-- `create_handoff` of the networked (Postgres) backend: the same
`UPDATE`-then-`INSERT` sequence. -/
def postgres_create_handoff (db : HandoffTable) (h : Handoff) : HandoffTable :=
  db.map (deactivateFor h.session_id) ++ [h]

/-- The rows a `WHERE session_id = ? AND active` query returns. -/
def activeHandoffs (db : HandoffTable) (session_id : String) : List Handoff :=
  db.filter (fun r => r.session_id == session_id && r.active)

/-- `active_handoff`: of the active rows for the session, the one with the
greatest `created_at` (the `ORDER BY created_at DESC LIMIT 1` row). -/
def active_handoff (db : HandoffTable) (session_id : String) : Option Handoff :=
  (activeHandoffs db session_id).foldl
    (fun acc r =>
      match acc with
      | none => some r
      | some m => if m.created_at < r.created_at then some r else some m)
    none

theorem activeHandoffs_map_deactivate (db : HandoffTable) (sid : String) :
    activeHandoffs (db.map (deactivateFor sid)) sid = [] := by
  induction db with
  | nil => rfl
  | cons r t ih =>
      by_cases hp : (r.session_id == sid && r.active) = true
      · have hfalse : ((deactivateFor sid r).session_id == sid &&
            (deactivateFor sid r).active) = false := by
          simp [deactivateFor, hp]
        simpa [activeHandoffs, List.filter_cons, hfalse] using ih
      · have hfalse : ((deactivateFor sid r).session_id == sid &&
            (deactivateFor sid r).active) = false := by
          simp only [deactivateFor, hp, if_false, Bool.if_false_right]
          simpa using hp
        simpa [activeHandoffs, List.filter_cons, hfalse] using ih

theorem activeHandoffs_map_other (db : HandoffTable) (sid s : String)
    (hne : s ≠ sid) :
    activeHandoffs (db.map (deactivateFor sid)) s = activeHandoffs db s := by
  induction db with
  | nil => rfl
  | cons r t ih =>
      by_cases hp : (r.session_id == sid && r.active) = true
      · have hsid : r.session_id = sid := by
          have := (Bool.and_eq_true _ _).mp hp
          exact eq_of_beq this.1
        have hss : (sid == s) = false := beq_eq_false_iff_ne.mpr (Ne.symm hne)
        have hd : deactivateFor sid r = { r with active := false } := by
          simp [deactivateFor, hp]
        have h1 : ((deactivateFor sid r).session_id == s &&
            (deactivateFor sid r).active) = false := by
          rw [hd]
          simp
        have h2 : (r.session_id == s && r.active) = false := by
          rw [hsid, hss, Bool.false_and]
        simpa [activeHandoffs, List.filter_cons, h1, h2] using ih
      · have hr : deactivateFor sid r = r := by
          simp [deactivateFor, hp]
        simp only [List.map_cons, hr, activeHandoffs, List.filter_cons] at *
        split
        · simpa using ih
        · exact ih

theorem activeHandoffs_create (db : HandoffTable) (h : Handoff) :
    activeHandoffs (sqlite_create_handoff db h) h.session_id =
      (if h.active then [h] else []) := by
  have : activeHandoffs (sqlite_create_handoff db h) h.session_id =
      activeHandoffs (db.map (deactivateFor h.session_id)) h.session_id ++
        activeHandoffs [h] h.session_id := by
    simp [sqlite_create_handoff, activeHandoffs]
  rw [this, activeHandoffs_map_deactivate]
  by_cases ha : h.active
  · simp [activeHandoffs, ha]
  · simp [activeHandoffs, ha]

/-- Claim C4: `create_handoff` deactivates every prior active row of the
session before inserting, so (i) after any create at most one row of that
session is active and other sessions are untouched, and (ii) creating
active handoffs A then B for session `s` leaves exactly `[B]` active for
`s`, with `active_handoff(s) = B` — on both backends (which embed to the
same table transformation). -/
theorem create_handoff_atomic :
    (∀ (db : HandoffTable) (h : Handoff),
        (activeHandoffs (sqlite_create_handoff db h) h.session_id).length ≤ 1 ∧
        (activeHandoffs (postgres_create_handoff db h) h.session_id).length ≤ 1 ∧
        (∀ s, s ≠ h.session_id →
          activeHandoffs (sqlite_create_handoff db h) s =
            activeHandoffs db s ++ activeHandoffs [h] s ∧
          activeHandoffs (postgres_create_handoff db h) s =
            activeHandoffs db s ++ activeHandoffs [h] s)) ∧
    (∀ (db : HandoffTable) (A B : Handoff) (s : String),
        A.session_id = s → B.session_id = s → A.active = true → B.active = true →
        activeHandoffs (sqlite_create_handoff (sqlite_create_handoff db A) B) s
            = [B] ∧
        active_handoff (sqlite_create_handoff (sqlite_create_handoff db A) B) s
            = some B ∧
        activeHandoffs (postgres_create_handoff (postgres_create_handoff db A) B) s
            = [B] ∧
        active_handoff (postgres_create_handoff (postgres_create_handoff db A) B) s
            = some B) := by
  constructor
  · intro db h
    refine ⟨?_, ?_, ?_⟩
    · rw [activeHandoffs_create]
      split <;> simp
    · show (activeHandoffs (sqlite_create_handoff db h) h.session_id).length ≤ 1
      rw [activeHandoffs_create]
      split <;> simp
    · intro s hs
      constructor
      · have : activeHandoffs (sqlite_create_handoff db h) s =
            activeHandoffs (db.map (deactivateFor h.session_id)) s ++
              activeHandoffs [h] s := by
          simp [sqlite_create_handoff, activeHandoffs]
        rw [this, activeHandoffs_map_other db h.session_id s hs]
      · have : activeHandoffs (postgres_create_handoff db h) s =
            activeHandoffs (db.map (deactivateFor h.session_id)) s ++
              activeHandoffs [h] s := by
          simp [postgres_create_handoff, activeHandoffs]
        rw [this, activeHandoffs_map_other db h.session_id s hs]
  · intro db A B s hA hB hAact hBact
    have hmain : activeHandoffs
        (sqlite_create_handoff (sqlite_create_handoff db A) B) s = [B] := by
      rw [← hB, activeHandoffs_create]
      simp [hBact]
    have hpg : postgres_create_handoff (postgres_create_handoff db A) B =
        sqlite_create_handoff (sqlite_create_handoff db A) B := rfl
    refine ⟨hmain, ?_, by rw [hpg]; exact hmain, ?_⟩ <;>
      simp [active_handoff, hpg, hmain]

/-- Concrete handoff A for session `s1` (active, created at 1). -/
def handoffA : Handoff :=
  { id := "A"
    from_agent := "alice"
    to_agent := "bob"
    session_id := "s1"
    reason := none
    context_summary := none
    active := true
    created_at := 1 }

/-- Concrete handoff B for session `s1` (active, created at 2). -/
def handoffB : Handoff :=
  { id := "B"
    from_agent := "bob"
    to_agent := "carol"
    session_id := "s1"
    reason := none
    context_summary := none
    active := true
    created_at := 2 }

/-- Witness for `create_handoff_atomic`: the empty table, then A, then B
for session `s1`, on both backends; and the untouched-session part at
session `s2`. -/
theorem create_handoff_atomic_witness :
    (activeHandoffs (sqlite_create_handoff (sqlite_create_handoff [] handoffA)
        handoffB) "s1" = [handoffB] ∧
      active_handoff (sqlite_create_handoff (sqlite_create_handoff [] handoffA)
        handoffB) "s1" = some handoffB ∧
      activeHandoffs (postgres_create_handoff (postgres_create_handoff [] handoffA)
        handoffB) "s1" = [handoffB] ∧
      active_handoff (postgres_create_handoff (postgres_create_handoff [] handoffA)
        handoffB) "s1" = some handoffB) ∧
    activeHandoffs (sqlite_create_handoff [] handoffA) "s2" =
      activeHandoffs [] "s2" ++ activeHandoffs [handoffA] "s2" :=
  ⟨create_handoff_atomic.2 [] handoffA handoffB "s1" rfl rfl rfl rfl,
   ((create_handoff_atomic.1 [] handoffA).2.2 "s2" (by decide)).1⟩

end Db

end Bizclaw
